import Mathlib

/-
  Verification development for the Travel-Guide chatbot repository.

  Shallow embedding of:
    - chat_chain.py : context adapters, session history store, chat_once
    - main.py       : FastAPI request model and the /chat, /health endpoints
    - app.py        : Streamlit presentation loop (city capture branch)

  Conventions of the embedding:
    - Python `str.strip()` is modelled by `pyStrip` (both remove leading
      and trailing ASCII whitespace; all inputs of interest are ASCII).
    - Python exceptions from the HTTP layer are modelled by `Except Unit`
      arguments: the adapter receives the outcome of the request instead of
      performing it.
    - JSON numbers are modelled by `PyNum`: an integer, or a float with one
      decimal digit (value = tenths / 10).  Every numeric value appearing in
      the claims has this shape, and Python `repr` and `.1f` formatting agree
      with the model on such values.
    - The in-memory session store (a Python dict) is modelled as a total
      function from session id to history; a fresh session maps to [].
-/

namespace TravelGuide

/-! ## Basic data -/

/-- Python `str.strip()`: drop leading and trailing whitespace.
    (Defined on the character list so that the kernel can evaluate it.) -/
def pyStrip (s : String) : String :=
  ⟨((s.data.dropWhile Char.isWhitespace).reverse.dropWhile Char.isWhitespace).reverse⟩

inductive Role where
  | user
  | assistant
deriving DecidableEq, Repr

structure Turn where
  role : Role
  text : String
deriving DecidableEq, Repr

abbrev Store := String → List Turn

def initStore : Store := fun _ => []

/-- `_SESSION_STORE[session_id].messages ++ new turns`, other sessions untouched. -/
def appendTurns (store : Store) (sid : String) (ts : List Turn) : Store :=
  fun id => if id = sid then store id ++ ts else store id

/-! ## Python-style numbers (JSON ints and one-decimal floats) -/

inductive PyNum where
  | pint : Int → PyNum
  | pfloat : Int → PyNum   -- `pfloat t` is the float t / 10
deriving DecidableEq, Repr

/-- Decimal rendering of `t / 10` with exactly one digit after the point,
    as Python produces for such floats. -/
def pyTenthsRepr (t : Int) : String :=
  (if t < 0 then "-" else "") ++ toString (t.natAbs / 10) ++ "." ++ toString (t.natAbs % 10)

/-- Python `f"{x:.1f}"` on the modelled numbers. -/
def pyFmt1 : PyNum → String
  | .pint i => toString i ++ ".0"
  | .pfloat t => pyTenthsRepr t

/-- Python `f"{x}"` (str) on the modelled numbers. -/
def pyRepr : PyNum → String
  | .pint i => toString i
  | .pfloat t => pyTenthsRepr t

/-! ## chat_chain.py : mode wrapping (chat_once, lines 318-334) -/

/-- The body of chat_once that turns the stripped message into the effective
    instruction, given the (already stripped, non-empty) city. -/
def effectiveInput (city : String) (msg : String) (mode : String) : String :=
  if mode = "day_plan" then
    "You are planning a single full day in " ++ city ++ ". " ++
    "User preferences or constraints: " ++ msg ++ ". " ++
    "Create a realistic, enjoyable 1-day plan with clear time blocks."
  else if mode = "multi_day" then
    "You are planning a multi-day trip in " ++ city ++ ". " ++
    "User description / constraints: " ++ msg ++ ". " ++
    "If the user does not specify days, assume 3–5 days. " ++
    "Create a day-wise itinerary with balanced sightseeing, food, and rest."
  else
    msg

/-- `msg = user_message.strip()` followed by the mode dispatch: the effective
    instruction as a function of (city, raw user message, mode). -/
def chatEffective (city : String) (userMessage : String) (mode : String) : String :=
  effectiveInput city (pyStrip userMessage) mode

/-- The fixed reply of chat_once when no city is set (chat_chain.py lines 313-316). -/
def cityPrompt : String :=
  "Before I can help, tell me which city you\x27re planning to visit " ++
  "(for example: \x27Jaipur\x27, \x27Paris\x27, \x27Bangkok\x27)."

/-! ## Theorems for C2 and C10 -/

/-- C2 (counterexample): with mode "chat" the effective instruction is NOT the
    user message passed unchanged — chat_once strips it first. -/
theorem chat_mode_not_unchanged :
    chatEffective "Paris" " hi " "chat" ≠ " hi " := by
  decide

/-- C2 (amended): the effective instruction is a deterministic pure function of
    (city, message, mode): for mode "chat" it is the STRIPPED user message; for
    "day_plan" it wraps the stripped message as a one-full-day plan containing
    "planning a single full day in {city}" and the literal constraint text; for
    "multi_day" it wraps it as a multi-day plan defaulting to 3–5 days. -/
theorem chatEffective_spec :
    (∀ c m, chatEffective c m "chat" = pyStrip m) ∧
    (∀ c m, chatEffective c m "day_plan" =
      "You are planning a single full day in " ++ c ++ ". " ++
      "User preferences or constraints: " ++ pyStrip m ++ ". " ++
      "Create a realistic, enjoyable 1-day plan with clear time blocks.") ∧
    (∀ c m, chatEffective c m "multi_day" =
      "You are planning a multi-day trip in " ++ c ++ ". " ++
      "User description / constraints: " ++ pyStrip m ++ ". " ++
      "If the user does not specify days, assume 3–5 days. " ++
      "Create a day-wise itinerary with balanced sightseeing, food, and rest.") := by
  refine ⟨fun c m => ?_, fun c m => ?_, fun c m => ?_⟩ <;> rfl

/-- C10: chat_once performs no validation of mode: every mode string other than
    "day_plan" and "multi_day" takes the else branch and passes the stripped
    user message through unchanged. -/
theorem mode_fallthrough (mode : String) (hd : mode ≠ "day_plan")
    (hm : mode ≠ "multi_day") :
    ∀ c m, chatEffective c m mode = pyStrip m := by
  intro c m
  unfold chatEffective effectiveInput
  rw [if_neg hd, if_neg hm]

/-- C10 witness: the undocumented mode "banana" behaves exactly like "chat". -/
theorem mode_fallthrough_witness :
    chatEffective "Paris" " hi " "banana" = pyStrip " hi " :=
  mode_fallthrough "banana" (by decide) (by decide) "Paris" " hi "

/-! ## chat_chain.py : weather adapter (_get_weather_context, lines 156-208)

The parsed JSON payload is modelled field by field:
`main` may be absent (`data.get("main", {})`), its three numeric fields may be
absent; `weather` is the list under the "weather" key, each entry possibly
lacking its "description" (in which case `weather_list[0]["description"]`
raises a KeyError, caught by the inner `except`); `wind.speed` and
`sys.country` are flattened to optional fields, absent meaning the key path
is missing (`.get` defaults). -/

structure WeatherMain where
  temp : Option PyNum
  feels_like : Option PyNum
  humidity : Option PyNum
deriving DecidableEq, Repr

structure WeatherEntry where
  description : Option String
deriving DecidableEq, Repr

structure WeatherPayload where
  main : Option WeatherMain
  weather : List WeatherEntry
  wind_speed : Option PyNum
  country : Option String
deriving DecidableEq, Repr

/-- `desc = weather_list[0]["description"] if weather_list else ""`:
    ok with "" when the list is empty, KeyError (error) when the first entry
    has no "description" key. -/
def descParse (d : WeatherPayload) : Except Unit String :=
  match d.weather with
  | [] => .ok ""
  | e :: _ =>
    match e.description with
    | some s => .ok s
    | none => .error ()

/-- The temperature sentence
    `f"Current temperature in {city}{...country...}: {temp:.1f}°C (feels like {feels_like:.1f}°C)."` -/
def tempSentence (city country : String) (t fl : PyNum) : String :=
  "Current temperature in " ++ city ++ (if country ≠ "" then ", " ++ country else "") ++
  ": " ++ pyFmt1 t ++ "°C (feels like " ++ pyFmt1 fl ++ "°C)."

/-- The `try:` block of `_get_weather_context` after a successful HTTP
    response: sequentially builds `parts` and joins them with spaces;
    any exception inside (the KeyError above) yields "". -/
def formatWeatherData (city : String) (d : WeatherPayload) : String :=
  match descParse d with
  | .error _ => ""
  | .ok desc =>
    let main := d.main.getD ⟨none, none, none⟩
    let country := d.country.getD ""
    let parts : List String := []
    let parts :=
      match main.temp, main.feels_like with
      | some t, some fl => parts ++ [tempSentence city country t fl]
      | _, _ => parts
    let parts := if desc ≠ "" then parts ++ ["Conditions: " ++ desc ++ "."] else parts
    let parts :=
      match main.humidity with
      | some h => parts ++ ["Humidity: " ++ pyRepr h ++ "%"]
      | none => parts
    let parts :=
      match d.wind_speed with
      | some w => parts ++ ["Wind: " ++ pyRepr w ++ " m/s"]
      | none => parts
    if parts.isEmpty then "" else String.intercalate " " parts

/-- The four optional sentences of the weather summary in their fixed order:
    present exactly when the corresponding payload fields are present. -/
def weatherSentenceOpts (city : String) (d : WeatherPayload) : List (Option String) :=
  let main := d.main.getD ⟨none, none, none⟩
  let country := d.country.getD ""
  let desc := match descParse d with | .ok s => s | .error _ => ""
  [ match main.temp, main.feels_like with
    | some t, some fl => some (tempSentence city country t fl)
    | _, _ => none,
    if desc ≠ "" then some ("Conditions: " ++ desc ++ ".") else none,
    main.humidity.map (fun h => "Humidity: " ++ pyRepr h ++ "%"),
    d.wind_speed.map (fun w => "Wind: " ++ pyRepr w ++ " m/s") ]

/-! ## Outbound calls (for the no-call claims) -/

inductive Call where
  | tavily (query : String)
  | weatherGet (city : String)
  | eventsGet (city : String)
  | llm (input : String)
deriving DecidableEq, Repr

/-- `_get_weather_context`: toggle / key / empty-city guards, one HTTP GET
    modelled by its outcome `http city`, all failures collapsed to "".
    The second component records the outbound HTTP call, if any. -/
def getWeatherContextT (use_weather : Bool) (key : Option String) (city : String)
    (http : String → Except Unit WeatherPayload) : String × List Call :=
  if !use_weather || key.getD "" = "" then ("", [])
  else
    let c := pyStrip city
    if c = "" then ("", [])
    else
      match http c with
      | .error _ => ("", [Call.weatherGet c])
      | .ok d => (formatWeatherData c d, [Call.weatherGet c])

/-! ## Theorems for C3 and C6 -/

/-- The weather payload of the worked example in the spec. -/
def weatherExamplePayload : WeatherPayload :=
  { main := some ⟨some (PyNum.pfloat 320), some (PyNum.pfloat 350), some (PyNum.pint 60)⟩
    weather := [⟨some "clear sky"⟩]
    wind_speed := some (PyNum.pint 3)
    country := some "FR" }

/-- A payload whose `main` key is missing but whose `weather` entry is intact. -/
def weatherNoMainPayload : WeatherPayload :=
  { main := none
    weather := [⟨some "clear sky"⟩]
    wind_speed := none
    country := none }

/-- C3: on a successful payload (no KeyError in the parse), the weather text is
    the space-join of exactly the sentences whose fields are present, in the
    fixed order temperature+feels-like, conditions, humidity, wind; and on the
    spec's example payload for "Paris" it is exactly the quoted string (hence
    starts with it). -/
theorem weather_format_spec :
    (∀ city d desc, descParse d = Except.ok desc →
      formatWeatherData city d =
        String.intercalate " " (weatherSentenceOpts city d).reduceOption) ∧
    formatWeatherData "Paris" weatherExamplePayload =
      "Current temperature in Paris, FR: 32.0°C (feels like 35.0°C). " ++
      "Conditions: clear sky. Humidity: 60% Wind: 3 m/s" := by
  constructor
  · intro city d desc hd
    unfold formatWeatherData weatherSentenceOpts
    rw [hd]
    rcases d with ⟨main, weather, wind, country⟩
    rcases main with _ | ⟨t, fl, h⟩ <;>
      simp only [Option.getD] <;>
      [skip; rcases t with _ | t <;> rcases fl with _ | fl <;> rcases h with _ | h] <;>
      rcases wind with _ | w <;>
      by_cases hdesc : desc ≠ "" <;>
      simp [hdesc, List.reduceOption, String.intercalate, descParse] at hd ⊢
  · rfl

/-- C3 witness: the universal part applied to the example payload. -/
theorem weather_format_spec_witness :
    formatWeatherData "Paris" weatherExamplePayload =
      String.intercalate " " (weatherSentenceOpts "Paris" weatherExamplePayload).reduceOption :=
  weather_format_spec.1 "Paris" weatherExamplePayload "clear sky" (by rfl)

/-- C6 (counterexample): a payload missing the `main` key but carrying a
    weather description does NOT yield the empty context: the description
    sentence survives, only the temperature/humidity sentences are dropped. -/
theorem weather_missing_main_not_empty :
    (getWeatherContextT true (some "k") "Paris"
      (fun _ => Except.ok weatherNoMainPayload)).1 = "Conditions: clear sky." ∧
    (getWeatherContextT true (some "k") "Paris"
      (fun _ => Except.ok weatherNoMainPayload)).1 ≠ "" := by
  constructor
  · rfl
  · decide

/-- C6 (amended): the weather adapter is a total function into strings (it
    never propagates an exception); it returns "" when the toggle is off, when
    the provider key is absent or empty, when the city strips to empty, on an
    HTTP/network/JSON error, and on the KeyError raised by an entry of
    `weather` with no description.  A payload missing the `main` key merely
    loses the temperature and humidity sentences: the context is empty only
    when every field is absent. -/
theorem weather_context_error_spec :
    (∀ key c http, getWeatherContextT false key c http = ("", [])) ∧
    (∀ uw c http, getWeatherContextT uw none c http = ("", [])) ∧
    (∀ uw c http, getWeatherContextT uw (some "") c http = ("", [])) ∧
    (∀ uw key c http, pyStrip c = "" → getWeatherContextT uw key c http = ("", [])) ∧
    (∀ key c, (getWeatherContextT true (some key) c (fun _ => Except.error ())).1 = "") ∧
    (∀ c d, descParse d = Except.error () → formatWeatherData c d = "") ∧
    (getWeatherContextT true (some "k") "Paris"
      (fun _ => Except.ok weatherNoMainPayload)).1 = "Conditions: clear sky." := by
  refine ⟨?_, ?_, ?_, ?_, ?_, ?_, rfl⟩
  · intro key c http; simp [getWeatherContextT]
  · intro uw c http; simp [getWeatherContextT]
  · intro uw c http; simp [getWeatherContextT]
  · intro uw key c http hc
    unfold getWeatherContextT
    rcases h : (!uw || key.getD "" = "" : Bool) with _ | _
    · simp [h, hc]
    · simp [h]
  · intro key c
    unfold getWeatherContextT
    rcases h : (!true || (some key).getD "" = "" : Bool) with _ | _
    · by_cases hc : pyStrip c = "" <;> simp [h, hc]
    · simp [h]
  · intro c d hd
    unfold formatWeatherData
    rw [hd]

/-- C6 amended witness: the adapter applied at a city that strips to empty. -/
theorem weather_context_error_spec_witness :
    getWeatherContextT true (some "k") "   " (fun _ => Except.ok weatherExamplePayload)
      = ("", []) :=
  weather_context_error_spec.2.2.2.1 true (some "k") "   "
    (fun _ => Except.ok weatherExamplePayload) (by decide)

/-! ## chat_chain.py : events adapter (_get_events_context, lines 211-258)

Each entry of `events_results` is flattened to its consumed fields; an absent
field means the corresponding key path is missing, in which case the `.get`
defaults ("Event" for the title, "" elsewhere) apply. -/

structure EventItem where
  title : Option String
  date_when : Option String
  date_start : Option String
  venue_name : Option String
  link : Option String
deriving DecidableEq, Repr

/-- The loop body: one bullet line per event, built by sequential appends. -/
def eventLine (ev : EventItem) : String :=
  let title := ev.title.getD "Event"
  let start := ev.date_start.getD ""
  let whenStr := ev.date_when.getD ""
  let venue := ev.venue_name.getD ""
  let link := ev.link.getD ""
  let line := "- " ++ title
  let line :=
    if whenStr ≠ "" then line ++ " | When: " ++ whenStr
    else if start ≠ "" then line ++ " | Date: " ++ start
    else line
  let line := if venue ≠ "" then line ++ " | Venue: " ++ venue else line
  let line := if link ≠ "" then line ++ " | Link: " ++ link else line
  line

/-- The formatting tail of `_get_events_context` after a successful HTTP
    response: empty list gives "", otherwise at most 8 bullet lines under a
    "Local events:" header. -/
def formatEventsResults (events : List EventItem) : String :=
  if events.isEmpty then ""
  else
    let lines := (events.take 8).map eventLine
    if lines.isEmpty then ""
    else "Local events:\n" ++ String.intercalate "\n" lines

structure EventsPayload where
  events_results : Option (List EventItem)
deriving DecidableEq, Repr

/-- `_get_events_context`: toggle / key guards, one HTTP GET modelled by its
    outcome, `data.get("events_results") or []`, then the formatting tail. -/
def getEventsContextT (use_events : Bool) (key : Option String) (city : String)
    (http : String → Except Unit EventsPayload) : String × List Call :=
  if !use_events || key.getD "" = "" then ("", [])
  else
    match http city with
    | .error _ => ("", [Call.eventsGet city])
    | .ok d => (formatEventsResults (d.events_results.getD []), [Call.eventsGet city])

/-- The when/date clause of a bullet: the human "when" string is preferred,
    the start date is the fallback, absent fields yield nothing. -/
def whenDateClause (ev : EventItem) : String :=
  let w := ev.date_when.getD ""
  let s := ev.date_start.getD ""
  if w ≠ "" then " | When: " ++ w else if s ≠ "" then " | Date: " ++ s else ""

/-- The venue clause of a bullet, empty when the venue name is absent. -/
def venueClause (ev : EventItem) : String :=
  let v := ev.venue_name.getD ""
  if v ≠ "" then " | Venue: " ++ v else ""

/-- The link clause of a bullet, empty when the link is absent. -/
def linkClause (ev : EventItem) : String :=
  let l := ev.link.getD ""
  if l ≠ "" then " | Link: " ++ l else ""

/-- C4: the events formatter maps the empty result list to "" (no sentinel),
    truncates every longer list to its first 8 entries — one bullet line each,
    joined under the header — and each bullet is the title followed by the
    when/date, venue and link clauses, each clause omitted when its field is
    absent; the adapter applies this to `events_results` of any successful
    response (missing key read as []). -/
theorem events_format_spec :
    formatEventsResults [] = "" ∧
    (∀ evs : List EventItem, evs ≠ [] →
      formatEventsResults evs =
        "Local events:\n" ++ String.intercalate "\n" ((evs.take 8).map eventLine)) ∧
    (∀ ev, eventLine ev =
      "- " ++ ev.title.getD "Event" ++ whenDateClause ev ++ venueClause ev ++ linkClause ev) ∧
    (∀ evs : List EventItem, ((evs.take 8).map eventLine).length ≤ 8) ∧
    (∀ key city payload, key ≠ "" →
      (getEventsContextT true (some key) city (fun _ => Except.ok payload)).1 =
        formatEventsResults (payload.events_results.getD [])) := by
  refine ⟨rfl, ?_, ?_, ?_, ?_⟩
  · intro evs hne
    rcases evs with _ | ⟨e, es⟩
    · exact absurd rfl hne
    · simp [formatEventsResults]
  · intro ev
    unfold eventLine whenDateClause venueClause linkClause
    by_cases hw : ev.date_when.getD "" ≠ "" <;>
      by_cases hs : ev.date_start.getD "" ≠ "" <;>
      by_cases hv : ev.venue_name.getD "" ≠ "" <;>
      by_cases hl : ev.link.getD "" ≠ "" <;>
      simp [hw, hs, hv, hl, String.append_assoc]
  · intro evs
    calc ((evs.take 8).map eventLine).length = (evs.take 8).length := by
          rw [List.length_map]
      _ ≤ 8 := by simp [List.length_take_le]
  · intro key city payload hk
    unfold getEventsContextT
    simp [hk]

/-- C4 witness: an 11-element result list is cut to 8 bullet lines. -/
theorem events_format_spec_witness :
    formatEventsResults
        (List.replicate 11 (⟨some "T", some "W", none, none, none⟩ : EventItem)) =
      "Local events:\n" ++ String.intercalate "\n"
        (((List.replicate 11 (⟨some "T", some "W", none, none, none⟩ : EventItem)).take 8).map
          eventLine) :=
  events_format_spec.2.1 _ (by decide)

/-! ## chat_chain.py : research adapter (_tavily_search, lines 120-140) -/

structure TavilyItem where
  content : Option String
deriving DecidableEq, Repr

/-- The three result shapes `_tavily_search` distinguishes with isinstance:
    a list of result dicts, a raw string, or anything else. -/
inductive TavilyRes where
  | rlist : List TavilyItem → TavilyRes
  | rstr : String → TavilyRes
  | rother : TavilyRes
deriving DecidableEq, Repr

/-- The shape dispatch of `_tavily_search` on a successful invoke:
    list → contents of the entries with truthy content, double-newline joined;
    string → unchanged; anything else → "". -/
def tavilyProcess : TavilyRes → String
  | .rlist rs =>
      String.intercalate "\n\n"
        ((rs.filter (fun r => r.content.getD "" ≠ "")).map (fun r => r.content.getD ""))
  | .rstr s => s
  | .rother => ""

/-- `_tavily_search`: missing tool → "", invoke wrapped in try/except. -/
def tavilySearchT (tool : Option (String → Except Unit TavilyRes)) (q : String) :
    String × List Call :=
  match tool with
  | none => ("", [])
  | some t =>
    match t q with
    | .error _ => ("", [Call.tavily q])
    | .ok res => (tavilyProcess res, [Call.tavily q])

/-- `_get_research_context`: disabled → "", otherwise search "{query} in {city}". -/
def getResearchContextT (tool : Option (String → Except Unit TavilyRes))
    (query city : String) (use_web : Bool) : String × List Call :=
  if !use_web then ("", [])
  else tavilySearchT tool (query ++ " in " ++ city)

/-- The fixed query template of `_get_forecast_and_places_context`. -/
def forecastQuery (city : String) : String :=
  "Short weather forecast for today in " ++ city ++ " (°C) and 8-12 top places " ++
  "to visit today, with a line or two about why they are good."

/-- `_get_forecast_and_places_context`: disabled → "", else the fixed query. -/
def getForecastContextT (tool : Option (String → Except Unit TavilyRes))
    (city : String) (use_web : Bool) : String × List Call :=
  if !use_web then ("", [])
  else tavilySearchT tool (forecastQuery city)

/-- Filtering on truthy content then reading it equals collecting exactly the
    non-empty content fields. -/
theorem tavily_filter_eq_filterMap (rs : List TavilyItem) :
    (rs.filter (fun r => r.content.getD "" ≠ "")).map (fun r => r.content.getD "") =
      rs.filterMap (fun r => r.content.bind (fun c => if c = "" then none else some c)) := by
  induction rs with
  | nil => rfl
  | cons r rs ih =>
    simp only [decide_not] at ih
    rcases r with ⟨_ | c⟩
    · simpa using ih
    · by_cases hc : c = "" <;> simp [hc, ih]

/-- C5: the research context is "" when disabled; on an exception from the
    tool invocation it is ""; a list result yields the blank-line-joined
    non-empty content fields; a string result is returned unchanged; any other
    result shape yields "". -/
theorem research_context_spec :
    (∀ tool q c, getResearchContextT tool q c false = ("", [])) ∧
    (∀ (t : String → Except Unit TavilyRes) q, t q = Except.error () →
      (tavilySearchT (some t) q).1 = "") ∧
    (∀ (t : String → Except Unit TavilyRes) q rs, t q = Except.ok (TavilyRes.rlist rs) →
      (tavilySearchT (some t) q).1 =
        String.intercalate "\n\n"
          (rs.filterMap (fun r => r.content.bind (fun c => if c = "" then none else some c)))) ∧
    (∀ (t : String → Except Unit TavilyRes) q s, t q = Except.ok (TavilyRes.rstr s) →
      (tavilySearchT (some t) q).1 = s) ∧
    (∀ (t : String → Except Unit TavilyRes) q, t q = Except.ok TavilyRes.rother →
      (tavilySearchT (some t) q).1 = "") := by
  refine ⟨?_, ?_, ?_, ?_, ?_⟩
  · intro tool q c; simp [getResearchContextT]
  · intro t q h; simp [tavilySearchT, h]
  · intro t q rs h
    have h1 : (tavilySearchT (some t) q).1 = tavilyProcess (TavilyRes.rlist rs) := by
      simp [tavilySearchT, h]
    rw [h1]
    show String.intercalate "\n\n"
        ((rs.filter (fun r => r.content.getD "" ≠ "")).map (fun r => r.content.getD "")) = _
    exact congrArg _ (tavily_filter_eq_filterMap rs)
  · intro t q s h; simp [tavilySearchT, h, tavilyProcess]
  · intro t q h; simp [tavilySearchT, h, tavilyProcess]

/-- C5 witness: one concrete invocation per branch of the contract. -/
theorem research_context_spec_witness :
    (tavilySearchT (some fun _ =>
        Except.ok (TavilyRes.rlist [⟨some "a"⟩, ⟨some ""⟩, ⟨none⟩, ⟨some "b"⟩])) "q").1 =
      String.intercalate "\n\n"
        ([⟨some "a"⟩, (⟨some ""⟩ : TavilyItem), ⟨none⟩, ⟨some "b"⟩].filterMap
          (fun r => r.content.bind (fun c => if c = "" then none else some c))) :=
  research_context_spec.2.2.1 _ "q" _ rfl

/-! ## chat_chain.py : the orchestrator (chat_once, lines 299-356)

The environment bundles what the process reads from outside: the two provider
keys, the Tavily tool installed on the chain (None when absent), the outcomes
of the two HTTP GETs, and the language model, which sees exactly the fields of
the assembled prompt (system text and templates are fixed, so they are not
parameters of the reply). -/

structure PromptInput where
  input : String
  city : String
  mode : String
  research_context : String
  forecast_context : String
  weather_context : String
  events_context : String
  history : List Turn

structure Env where
  openweatherKey : Option String
  serpapiKey : Option String
  researchTool : Option (String → Except Unit TavilyRes)
  httpWeather : String → Except Unit WeatherPayload
  httpEvents : String → Except Unit EventsPayload
  llm : PromptInput → String

/-- `chat_once`: one turn.  Returns the reply, the session store after the
    turn (`RunnableWithMessageHistory` appends the "input" message and the
    model output to the session history), and the outbound calls issued. -/
def chatOnce (env : Env) (store : Store) (session_id : String) (city : Option String)
    (user_message : String) (mode : String := "chat") (use_web : Bool := true)
    (use_weather : Bool := true) (use_events : Bool := true) :
    String × Store × List Call :=
  let c := pyStrip (city.getD "")
  if c = "" then
    (cityPrompt, store, [])
  else
    let eff := chatEffective c user_message mode
    let research := getResearchContextT env.researchTool eff c use_web
    let forecast := getForecastContextT env.researchTool c use_web
    let weather := getWeatherContextT use_weather env.openweatherKey c env.httpWeather
    let events := getEventsContextT use_events env.serpapiKey c env.httpEvents
    let hist := store session_id
    let reply := env.llm ⟨eff, c, mode, research.1, forecast.1, weather.1, events.1, hist⟩
    (reply,
     appendTurns store session_id [⟨Role.user, eff⟩, ⟨Role.assistant, reply⟩],
     research.2 ++ forecast.2 ++ weather.2 ++ events.2 ++ [Call.llm eff])

/-- C1: whenever the city argument is None or strips to the empty string,
    chat_once returns the fixed city prompt, issues no provider or model call,
    and leaves the session store untouched — for every session id, message,
    mode and toggle combination. -/
theorem chat_once_no_city (env : Env) (store : Store) (sid : String)
    (city : Option String) (msg mode : String) (uw uwe uev : Bool)
    (h : pyStrip (city.getD "") = "") :
    chatOnce env store sid city msg mode uw uwe uev = (cityPrompt, store, []) := by
  unfold chatOnce
  simp [h]

/-- A concrete environment whose oracles are all inert, for witnesses. -/
def witnessEnv : Env :=
  { openweatherKey := some "wk"
    serpapiKey := some "sk"
    researchTool := some (fun _ => Except.ok (TavilyRes.rstr "snippet"))
    httpWeather := fun _ => Except.ok weatherExamplePayload
    httpEvents := fun _ => Except.ok ⟨some []⟩
    llm := fun p => "reply to " ++ p.input }

/-- C1 witness: a whitespace-only city on a concrete store and environment. -/
theorem chat_once_no_city_witness :
    chatOnce witnessEnv initStore "s1" (some "   ") "hello" "day_plan" true true true
      = (cityPrompt, initStore, []) :=
  chat_once_no_city witnessEnv initStore "s1" (some "   ") "hello" "day_plan"
    true true true (by decide)

/-! ## Session history (get_history, lines 28-31; RunnableWithMessageHistory) -/

/-- The argument package of one call to chat_once made through the UI or the
    endpoint (the session id being fixed). -/
structure TurnInput where
  city : String
  message : String
  mode : String
  use_web : Bool
  use_weather : Bool
  use_events : Bool

/-- N successive completed chat_once turns on one session. -/
def runTurns (env : Env) (store : Store) (sid : String) : List TurnInput → Store
  | [] => store
  | t :: ts =>
      runTurns env
        (chatOnce env store sid (some t.city) t.message t.mode
          t.use_web t.use_weather t.use_events).2.1
        sid ts

/-- The model reply of one turn, as a function of the history it saw. -/
def turnReply (env : Env) (hist : List Turn) (t : TurnInput) : String :=
  let c := pyStrip t.city
  let eff := chatEffective c t.message t.mode
  env.llm ⟨eff, c, t.mode,
    (getResearchContextT env.researchTool eff c t.use_web).1,
    (getForecastContextT env.researchTool c t.use_web).1,
    (getWeatherContextT t.use_weather env.openweatherKey c env.httpWeather).1,
    (getEventsContextT t.use_events env.serpapiKey c env.httpEvents).1,
    hist⟩

/-- The chronological user/assistant pair list a history accumulates:
    each turn appends its effective instruction and the model's reply. -/
def historyAfter (env : Env) (hist : List Turn) : List TurnInput → List Turn
  | [] => hist
  | t :: ts =>
      historyAfter env
        (hist ++ [⟨Role.user, chatEffective (pyStrip t.city) t.message t.mode⟩,
                  ⟨Role.assistant, turnReply env hist t⟩]) ts

/-- One completed turn with a non-empty city appends exactly its user/assistant
    pair to its own session and leaves every other session alone. -/
theorem chatOnce_step (env : Env) (store : Store) (sid : String) (t : TurnInput)
    (h : pyStrip t.city ≠ "") :
    (chatOnce env store sid (some t.city) t.message t.mode
        t.use_web t.use_weather t.use_events).2.1 =
      appendTurns store sid
        [⟨Role.user, chatEffective (pyStrip t.city) t.message t.mode⟩,
         ⟨Role.assistant, turnReply env (store sid) t⟩] := by
  unfold chatOnce turnReply
  simp [h]

/-- Reading a session after appending to it. -/
theorem appendTurns_self (store : Store) (sid : String) (ts : List Turn) :
    appendTurns store sid ts sid = store sid ++ ts := by
  simp [appendTurns]

/-- C7 helper: running turns from any store extends the session's history by
    exactly the chronological pair list. -/
theorem runTurns_history (env : Env) (sid : String) :
    ∀ (ts : List TurnInput) (store : Store), (∀ t ∈ ts, pyStrip t.city ≠ "") →
      runTurns env store sid ts sid = historyAfter env (store sid) ts := by
  intro ts
  induction ts with
  | nil => intro store _; rfl
  | cons t ts ih =>
    intro store hc
    have ht : pyStrip t.city ≠ "" := hc t (List.mem_cons_self t ts)
    have hrest : ∀ t' ∈ ts, pyStrip t'.city ≠ "" :=
      fun t' h' => hc t' (List.mem_cons_of_mem t h')
    show runTurns env _ sid ts sid = _
    rw [chatOnce_step env store sid t ht, ih _ hrest, appendTurns_self]
    rfl

/-- The pair list of N turns has exactly 2N entries beyond the prior history. -/
theorem historyAfter_length (env : Env) :
    ∀ (ts : List TurnInput) (hist : List Turn),
      (historyAfter env hist ts).length = hist.length + 2 * ts.length := by
  intro ts
  induction ts with
  | nil => intro hist; simp [historyAfter]
  | cons t ts ih =>
    intro hist
    show (historyAfter env (hist ++ [_, _]) ts).length = _
    rw [ih]
    simp
    ring

/-- C7: a fresh session id maps to the empty history, and after N completed
    chat_once turns with non-empty cities on one session the history is the
    chronological concatenation of one user/assistant pair per turn — the
    effective instruction followed by the model's reply — hence has exactly
    N pairs (2N entries). -/
theorem session_history_spec :
    (∀ sid, initStore sid = []) ∧
    (∀ env sid (ts : List TurnInput), (∀ t ∈ ts, pyStrip t.city ≠ "") →
      runTurns env initStore sid ts sid = historyAfter env [] ts ∧
      (runTurns env initStore sid ts sid).length = 2 * ts.length) := by
  refine ⟨fun _ => rfl, fun env sid ts hc => ?_⟩
  have h := runTurns_history env sid ts initStore hc
  refine ⟨h, ?_⟩
  rw [h, historyAfter_length]
  simp [initStore]

/-- C7 witness: two concrete turns on a fresh session produce exactly the two
    expected user/assistant pairs, in order. -/
theorem session_history_spec_witness :
    runTurns witnessEnv initStore "s"
        [⟨"Paris", "hi", "chat", true, true, true⟩,
         ⟨"Paris", "food?", "chat", true, true, true⟩] "s" =
      historyAfter witnessEnv []
        [⟨"Paris", "hi", "chat", true, true, true⟩,
         ⟨"Paris", "food?", "chat", true, true, true⟩] :=
  (session_history_spec.2 witnessEnv "s"
    [⟨"Paris", "hi", "chat", true, true, true⟩,
     ⟨"Paris", "food?", "chat", true, true, true⟩]
    (by intro t ht; fin_cases ht <;> decide)).1

/-! ## main.py : the HTTP interface (lines 25-55)

JSON values are modelled by the three shapes the request model consumes
(strings, booleans, null); a request body is an association list of fields.
`parseChatRequest` models pydantic validation of `ChatRequest`:
`session_id: str`, `message: str`, `city: Optional[str] = None`,
`mode: Literal["chat","day_plan","multi_day"] = "chat"`, and the three
`Optional[bool] = True` toggles. -/

inductive JVal where
  | jstr : String → JVal
  | jbool : Bool → JVal
  | jnull : JVal
deriving DecidableEq, Repr

/-- A required `str` field. -/
def parseStr : Option JVal → Option String
  | some (.jstr s) => some s
  | _ => none

/-- An `Optional[str] = None` field. -/
def parseOptStr : Option JVal → Option (Option String)
  | none => some none
  | some .jnull => some none
  | some (.jstr s) => some (some s)
  | some _ => none

/-- The `Literal["chat", "day_plan", "multi_day"] = "chat"` field. -/
def parseMode : Option JVal → Option String
  | none => some "chat"
  | some (.jstr s) =>
      if s = "chat" ∨ s = "day_plan" ∨ s = "multi_day" then some s else none
  | some _ => none

/-- An `Optional[bool] = True` field. -/
def parseOptBool : Option JVal → Option (Option Bool)
  | none => some (some true)
  | some .jnull => some none
  | some (.jbool b) => some (some b)
  | some _ => none

structure ChatRequest where
  session_id : String
  message : String
  city : Option String
  mode : String
  use_web : Option Bool
  use_weather : Option Bool
  use_events : Option Bool
deriving DecidableEq, Repr

/-- Validation of a POST /chat body against `ChatRequest`
    (extra fields are ignored; `none` is a 422 rejection). -/
def parseChatRequest (body : List (String × JVal)) : Option ChatRequest :=
  match parseStr (body.lookup "session_id"), parseStr (body.lookup "message"),
        parseOptStr (body.lookup "city"), parseMode (body.lookup "mode"),
        parseOptBool (body.lookup "use_web"), parseOptBool (body.lookup "use_weather"),
        parseOptBool (body.lookup "use_events") with
  | some sid, some msg, some city, some mode, some uw, some uwe, some uev =>
      some ⟨sid, msg, city, mode, uw, uwe, uev⟩
  | _, _, _, _, _, _, _ => none

structure ChatResponse where
  reply : String
deriving DecidableEq, Repr

/-- Python truthiness of the `Optional[bool]` toggles as chat_once tests them
    (`if not use_web`): None counts as false. -/
def pyTruthy (b : Option Bool) : Bool := b.getD false

/-- The POST /chat handler: one chat_once call, wrapped as `{reply: ...}`. -/
def chatEndpoint (env : Env) (store : Store) (r : ChatRequest) : ChatResponse × Store :=
  let out := chatOnce env store r.session_id r.city r.message r.mode
    (pyTruthy r.use_web) (pyTruthy r.use_weather) (pyTruthy r.use_events)
  (⟨out.1⟩, out.2.1)

/-- The GET /health handler body. -/
def healthResponse : List (String × String) := [("status", "ok")]

/-- Every accepted mode is one of the three literals. -/
theorem parseMode_mem (v : Option JVal) (m : String) (h : parseMode v = some m) :
    m = "chat" ∨ m = "day_plan" ∨ m = "multi_day" := by
  match v with
  | none => exact Or.inl (Option.some_injective _ h).symm
  | some (.jstr s) =>
    simp only [parseMode] at h
    by_cases hs : s = "chat" ∨ s = "day_plan" ∨ s = "multi_day"
    · rw [if_pos hs] at h
      exact (Option.some_injective _ h) ▸ hs
    · rw [if_neg hs] at h
      exact absurd h (by simp)
  | some (.jbool b) => exact absurd h (by simp [parseMode])
  | some .jnull => exact absurd h (by simp [parseMode])

/-- C8: POST /chat accepts a JSON body {session_id, message, city?, mode,
    use_web?, use_weather?, use_events?}: the mode of every accepted request is
    one of chat | day_plan | multi_day; a body carrying only the two required
    fields gets mode "chat", city None and all three toggles True; the response
    is exactly {reply: <the orchestrator reply>}; GET /health answers
    {status: "ok"}. -/
theorem http_interface_spec :
    (∀ body r, parseChatRequest body = some r →
      r.mode = "chat" ∨ r.mode = "day_plan" ∨ r.mode = "multi_day") ∧
    (∀ sid msg, parseChatRequest [("session_id", JVal.jstr sid), ("message", JVal.jstr msg)] =
      some ⟨sid, msg, none, "chat", some true, some true, some true⟩) ∧
    (∀ env store r, (chatEndpoint env store r).1 =
      ⟨(chatOnce env store r.session_id r.city r.message r.mode
          (pyTruthy r.use_web) (pyTruthy r.use_weather) (pyTruthy r.use_events)).1⟩) ∧
    healthResponse = [("status", "ok")] := by
  refine ⟨?_, ?_, fun env store r => rfl, rfl⟩
  · intro body r h
    unfold parseChatRequest at h
    rcases h1 : parseStr (body.lookup "session_id") with _ | sid <;> rw [h1] at h
    · exact absurd h (by simp)
    rcases h2 : parseStr (body.lookup "message") with _ | msg <;> rw [h2] at h
    · exact absurd h (by simp)
    rcases h3 : parseOptStr (body.lookup "city") with _ | city <;> rw [h3] at h
    · exact absurd h (by simp)
    rcases h4 : parseMode (body.lookup "mode") with _ | mode <;> rw [h4] at h
    · exact absurd h (by simp)
    rcases h5 : parseOptBool (body.lookup "use_web") with _ | uw <;> rw [h5] at h
    · exact absurd h (by simp)
    rcases h6 : parseOptBool (body.lookup "use_weather") with _ | uwe <;> rw [h6] at h
    · exact absurd h (by simp)
    rcases h7 : parseOptBool (body.lookup "use_events") with _ | uev <;> rw [h7] at h
    · exact absurd h (by simp)
    have : r = ⟨sid, msg, city, mode, uw, uwe, uev⟩ := (Option.some_injective _ h).symm
    rw [this]
    exact parseMode_mem _ _ h4
  · intro sid msg
    rfl

/-- C8 witness: a request carrying mode "day_plan" is accepted with that mode. -/
theorem http_interface_spec_witness :
    ("day_plan" : String) = "chat" ∨ ("day_plan" : String) = "day_plan" ∨
      ("day_plan" : String) = "multi_day" :=
  http_interface_spec.1
    [("session_id", JVal.jstr "s"), ("message", JVal.jstr "m"),
     ("mode", JVal.jstr "day_plan")]
    ⟨"s", "m", none, "day_plan", some true, some true, some true⟩ rfl

/-! ## app.py : the presentation layer (main, lines 306-351)

The per-browser session state is the visible transcript and the chosen city
(initially "").  On each submission the user message is appended; when the
city is still unset the message is consumed as the city name and a
confirmation is emitted, otherwise the current city and the message go to the
backend (context assembly + Gemini call, abstracted as `backend` since the
claim concerns only which city each submission is forwarded with) and the
reply is appended.  The second component of `appStep`/`runApp` records the
(city, message) pairs forwarded to the backend. -/

structure AppState where
  messages : List Turn
  city : String
deriving Repr

def initAppState : AppState := ⟨[], ""⟩

/-- The confirmation emitted when a submission is consumed as the city name. -/
def confirmReply (cityName : String) : String :=
  "Great, we will plan for **" ++ cityName ++ "**.\n\n" ++
  "Now you can ask anything about this city, or choose 1-day / multi-day " ++
  "mode in the sidebar and ask for an itinerary."

/-- One user submission (app.py lines 308-351). -/
def appStep (backend : String → String → String) (s : AppState) (user_input : String) :
    AppState × List (String × String) :=
  let withUser := s.messages ++ [⟨Role.user, user_input⟩]
  if s.city = "" then
    let cityName := pyStrip user_input
    (⟨withUser ++ [⟨Role.assistant, confirmReply cityName⟩], cityName⟩, [])
  else
    let reply := backend s.city user_input
    (⟨withUser ++ [⟨Role.assistant, reply⟩], s.city⟩, [(s.city, user_input)])

/-- A sequence of user submissions, accumulating the backend calls. -/
def runApp (backend : String → String → String) (s : AppState) :
    List String → AppState × List (String × String)
  | [] => (s, [])
  | i :: is =>
      let step := appStep backend s i
      let rest := runApp backend step.1 is
      (rest.1, step.2 ++ rest.2)

/-- C9 (counterexample): when the first user message strips to empty, the city
    is NOT taken from the first message: the second submission is consumed as
    the city (forwarded to no backend), and the third is forwarded with a city
    that differs from the first message's stripped text. -/
theorem app_city_not_first_message :
    ¬ ((runApp (fun _ _ => "ok") initAppState ["   ", "Paris", "hi"]).2.all
        (fun call => call.1 = pyStrip "   ")) := by
  decide

/-- C9 (amended): when the first user message of a session strips to a
    non-empty city name, the city is set exactly once, from that first message,
    and never changes; the first submission reaches no backend, and every later
    submission is forwarded to the backend with that same city, in order. -/
theorem app_city_once_spec (backend : String → String → String) (i : String)
    (is : List String) (h : pyStrip i ≠ "") :
    (runApp backend initAppState (i :: is)).1.city = pyStrip i ∧
    (runApp backend initAppState (i :: is)).2 = is.map (fun m => (pyStrip i, m)) := by
  have key : ∀ (is' : List String) (s : AppState), s.city ≠ "" →
      (runApp backend s is').1.city = s.city ∧
      (runApp backend s is').2 = is'.map (fun m => (s.city, m)) := by
    intro is'
    induction is' with
    | nil => intro s _; exact ⟨rfl, rfl⟩
    | cons m ms ih =>
      intro s hs
      have hstep : appStep backend s m =
          (⟨s.messages ++ [⟨Role.user, m⟩] ++ [⟨Role.assistant, backend s.city m⟩], s.city⟩,
           [(s.city, m)]) := by
        unfold appStep
        rw [if_neg hs]
      have := ih ⟨s.messages ++ [⟨Role.user, m⟩] ++ [⟨Role.assistant, backend s.city m⟩],
        s.city⟩ hs
      show ((runApp backend (appStep backend s m).1 ms).1.city = s.city) ∧
        ((appStep backend s m).2 ++ (runApp backend (appStep backend s m).1 ms).2 =
          (m :: ms).map (fun m => (s.city, m)))
      rw [hstep]
      exact ⟨this.1, by rw [this.2]; rfl⟩
  have hfirst : appStep backend initAppState i =
      (⟨[⟨Role.user, i⟩, ⟨Role.assistant, confirmReply (pyStrip i)⟩], pyStrip i⟩, []) := by
    unfold appStep initAppState
    simp
  have := key is ⟨[⟨Role.user, i⟩, ⟨Role.assistant, confirmReply (pyStrip i)⟩], pyStrip i⟩ h
  show ((runApp backend (appStep backend initAppState i).1 is).1.city = pyStrip i) ∧
    ((appStep backend initAppState i).2 ++
      (runApp backend (appStep backend initAppState i).1 is).2 =
      is.map (fun m => (pyStrip i, m)))
  rw [hfirst]
  refine ⟨this.1, ?_⟩
  simpa using this.2

/-- C9 amended witness: "Paris" then two questions — both forwarded with
    city "Paris". -/
theorem app_city_once_spec_witness :
    (runApp (fun _ _ => "ok") initAppState ["Paris", "food?", "museums?"]).1.city =
      pyStrip "Paris" ∧
    (runApp (fun _ _ => "ok") initAppState ["Paris", "food?", "museums?"]).2 =
      ["food?", "museums?"].map (fun m => (pyStrip "Paris", m)) :=
  app_city_once_spec (fun _ _ => "ok") "Paris" ["food?", "museums?"] (by decide)

end TravelGuide
